import Mathlib

/-!
Shallow embedding of the Local Herro backend (index.js).

The server keeps four independent in-memory registries: a presence map
(most recent location report per device id, stale after 2 minutes), a
public message log (capped at 200 entries, 30 minute time to live), a
help-alert registry (1 hour time to live, mutable acceptance fields) and
a direct-message log scoped to alert ids (1 hour time to live).  All
pruning is lazy: each request prunes the registry it touches before or
after its own mutation, exactly as the handlers do.  Geographic queries
filter by haversine distance.

Timestamps are integers (milliseconds, as produced by Date.now());
coordinates are real numbers.  Optional / possibly-absent request fields
are Options; JavaScript falsiness of strings is modelled by comparison
with the empty string.  Generated identifiers are passed in by the
caller, resolving the source's time-plus-random generation
nondeterministically.
-/

namespace LocalHerro

/-- Staleness threshold for presence records: 2 minutes in milliseconds. -/
def STALE_MS : Int := 2 * 60 * 1000

/-- Hard cap on the public message log. -/
def MAX_MESSAGES : Nat := 200

/-- Time to live of a public message: 30 minutes in milliseconds. -/
def MESSAGE_TTL_MS : Int := 30 * 60 * 1000

/-- Time to live of a help alert: 1 hour in milliseconds. -/
def HELP_ALERT_TTL_MS : Int := 60 * 60 * 1000

/-- Time to live of a direct message: 1 hour in milliseconds. -/
def DIRECT_MSG_TTL_MS : Int := 60 * 60 * 1000

/-- The two error kinds the handlers produce: HTTP 400 (validation) and
HTTP 404 (not found). -/
inductive Err
  | validation
  | notFound
deriving DecidableEq

/-- JavaScript `x || d` for an optional string field: the default applies
when the field is absent or the empty string. -/
def orDefault (x : Option String) (d : String) : String :=
  match x with
  | some s => if s = "" then d else s
  | none => d

/-- JavaScript `x || null` for an optional string field: the empty string
collapses to null. -/
def orNull (x : Option String) : Option String :=
  match x with
  | some s => if s = "" then none else some s
  | none => none

/-- JavaScript `x && uid === x` for an optional id filter (selfId in
nearby-users, excludeId in help-alert queries). -/
def idMatches (x : Option String) (uid : String) : Bool :=
  match x with
  | some s => !(s = "") && uid == s
  | none => false

/-- JavaScript `t.slice(0, 500)`: the first 500 characters of a string. -/
def slice500 (t : String) : String := String.mk (t.data.take 500)

open Classical in
/-- JavaScript Math.atan2 on real numbers, by quadrant. -/
noncomputable def atan2 (y x : ℝ) : ℝ :=
  if 0 < x then Real.arctan (y / x)
  else if x < 0 ∧ 0 ≤ y then Real.arctan (y / x) + Real.pi
  else if x < 0 ∧ y < 0 then Real.arctan (y / x) - Real.pi
  else if x = 0 ∧ 0 < y then Real.pi / 2
  else if x = 0 ∧ y < 0 then -(Real.pi / 2)
  else 0

/-- haversineKm from index.js: great-circle distance in kilometers
between two latitude/longitude pairs in degrees, Earth radius 6371 km. -/
noncomputable def haversineKm (lat1 lon1 lat2 lon2 : ℝ) : ℝ :=
  let R : ℝ := 6371
  let dLat := (lat2 - lat1) * Real.pi / 180
  let dLon := (lon2 - lon1) * Real.pi / 180
  let a :=
    Real.sin (dLat / 2) * Real.sin (dLat / 2) +
      Real.cos (lat1 * Real.pi / 180) * Real.cos (lat2 * Real.pi / 180) *
        Real.sin (dLon / 2) * Real.sin (dLon / 2)
  let c := 2 * atan2 (Real.sqrt a) (Real.sqrt (1 - a))
  R * c

/-- A presence record: the most recent location report of one device. -/
structure PresenceRecord where
  id : String
  name : String
  profession : String
  latitude : ℝ
  longitude : ℝ
  lastSeen : Int

/-- prunePresence from index.js: delete every record whose age exceeds
STALE_MS.  The JavaScript Map is modelled as an insertion-ordered list. -/
def prunePresence (now : Int) (m : List PresenceRecord) : List PresenceRecord :=
  m.filter (fun u => !decide (STALE_MS < now - u.lastSeen))

/-- JavaScript Map.set: overwrite in place when the key is present,
append otherwise. -/
def mapSet (m : List PresenceRecord) (r : PresenceRecord) : List PresenceRecord :=
  if m.any (fun u => u.id == r.id) then
    m.map (fun u => if u.id == r.id then r else u)
  else m ++ [r]

/-- Handler POST /presence: validate, upsert the record with the current
timestamp, then prune the whole registry. -/
def postPresence (now : Int) (id name profession : Option String)
    (latitude longitude : Option ℝ) (m : List PresenceRecord) :
    Except Err Unit × List PresenceRecord :=
  match id, latitude, longitude with
  | some i, some lat, some lng =>
    if i = "" then (Except.error Err.validation, m)
    else
      (Except.ok (),
        prunePresence now (mapSet m
          { id := i, name := orDefault name "Guest user",
            profession := orDefault profession "Citizen",
            latitude := lat, longitude := lng, lastSeen := now }))
  | _, _, _ => (Except.error Err.validation, m)

/-- One row of the GET /nearby-users response. -/
structure NearbyUser where
  id : String
  name : String
  profession : String
  latitude : ℝ
  longitude : ℝ
  distanceKm : ℝ

open Classical in
/-- Handler GET /nearby-users: validate the coordinates, prune, then list
every remaining record other than the caller within radiusKm, annotated
with its haversine distance. -/
noncomputable def getNearbyUsers (now : Int) (lat lng : Option ℝ) (radiusKm : ℝ)
    (selfId : Option String) (m : List PresenceRecord) :
    Except Err (List NearbyUser) × List PresenceRecord :=
  match lat, lng with
  | some la, some ln =>
    let m2 := prunePresence now m
    (Except.ok (m2.filterMap (fun u =>
      if idMatches selfId u.id then none
      else
        let d := haversineKm la ln u.latitude u.longitude
        if d ≤ radiusKm then
          some { id := u.id, name := u.name, profession := u.profession,
                 latitude := u.latitude, longitude := u.longitude,
                 distanceKm := d }
        else none)), m2)
  | _, _ => (Except.error Err.validation, m)

/-- A public broadcast chat message. -/
structure PublicMessage where
  id : String
  fromId : String
  fromName : String
  profession : String
  latitude : ℝ
  longitude : ℝ
  text : String
  timestamp : Int

/-- pruneMessages from index.js: shift from the front while the oldest
entry is over MESSAGE_TTL_MS old. -/
def pruneMessages (now : Int) (l : List PublicMessage) : List PublicMessage :=
  l.dropWhile (fun m => decide (m.timestamp < now - MESSAGE_TTL_MS))

/-- Handler POST /messages: validate, append the new message (text
truncated to 500 characters), prune by age, then trim the log to the most
recent MAX_MESSAGES entries. -/
def postMessage (now : Int) (newId : String)
    (fromId fromName profession : Option String)
    (latitude longitude : Option ℝ) (text : Option String)
    (l : List PublicMessage) : Except Err PublicMessage × List PublicMessage :=
  match fromId, latitude, longitude, text with
  | some f, some lat, some lng, some t =>
    if f = "" ∨ t = "" then (Except.error Err.validation, l)
    else
      let msg : PublicMessage :=
        { id := newId, fromId := f, fromName := orDefault fromName "Guest user",
          profession := orDefault profession "Citizen",
          latitude := lat, longitude := lng,
          text := slice500 t, timestamp := now }
      let l1 := pruneMessages now (l ++ [msg])
      let l2 :=
        if MAX_MESSAGES < l1.length then l1.drop (l1.length - MAX_MESSAGES) else l1
      (Except.ok msg, l2)
  | _, _, _, _ => (Except.error Err.validation, l)

open Classical in
/-- Handler GET /messages: validate the coordinates, prune by age, filter
by distance, sort ascending by timestamp. -/
noncomputable def getMessages (now : Int) (lat lng : Option ℝ) (radiusKm : ℝ)
    (l : List PublicMessage) :
    Except Err (List PublicMessage) × List PublicMessage :=
  match lat, lng with
  | some la, some ln =>
    let l2 := pruneMessages now l
    (Except.ok ((l2.filter (fun m =>
        decide (haversineKm la ln m.latitude m.longitude ≤ radiusKm))).mergeSort
        (fun a b => decide (a.timestamp ≤ b.timestamp))), l2)
  | _, _ => (Except.error Err.validation, l)

/-- A help alert with its mutable acceptance sub-record (all acceptance
fields are none until the alert is accepted). -/
structure HelpAlert where
  id : String
  type : String
  message : String
  latitude : ℝ
  longitude : ℝ
  requestedById : String
  requestedByName : String
  requestedPhone : Option String
  timestamp : Int
  acceptedById : Option String
  acceptedByName : Option String
  acceptedPhone : Option String
  acceptedAt : Option Int

/-- pruneHelpAlerts from index.js: shift from the front while the oldest
alert is over HELP_ALERT_TTL_MS old. -/
def pruneHelpAlerts (now : Int) (l : List HelpAlert) : List HelpAlert :=
  l.dropWhile (fun a => decide (a.timestamp < now - HELP_ALERT_TTL_MS))

/-- Handler POST /help-alerts: validate, append the new alert (message
truncated to 500 characters, acceptance fields null), prune by age. -/
def postHelpAlert (now : Int) (newId : String)
    (fromId fromName phone type message : Option String)
    (latitude longitude : Option ℝ) (l : List HelpAlert) :
    Except Err HelpAlert × List HelpAlert :=
  match fromId, message, latitude, longitude with
  | some f, some msgText, some lat, some lng =>
    if f = "" ∨ msgText = "" then (Except.error Err.validation, l)
    else
      let alert : HelpAlert :=
        { id := newId, type := orDefault type "HELP",
          message := slice500 msgText,
          latitude := lat, longitude := lng,
          requestedById := f, requestedByName := orDefault fromName "Guest user",
          requestedPhone := orNull phone, timestamp := now,
          acceptedById := none, acceptedByName := none,
          acceptedPhone := none, acceptedAt := none }
      (Except.ok alert, pruneHelpAlerts now (l ++ [alert]))
  | _, _, _, _ => (Except.error Err.validation, l)

open Classical in
/-- Handler GET /help-alerts: validate the coordinates, prune by age,
drop alerts requested by excludeId, filter by distance, sort descending
by timestamp. -/
noncomputable def getHelpAlerts (now : Int) (lat lng : Option ℝ) (radiusKm : ℝ)
    (excludeId : Option String) (l : List HelpAlert) :
    Except Err (List HelpAlert) × List HelpAlert :=
  match lat, lng with
  | some la, some ln =>
    let l2 := pruneHelpAlerts now l
    (Except.ok ((l2.filter (fun a =>
        !idMatches excludeId a.requestedById &&
          decide (haversineKm la ln a.latitude a.longitude ≤ radiusKm))).mergeSort
        (fun a b => decide (b.timestamp ≤ a.timestamp))), l2)
  | _, _ => (Except.error Err.validation, l)

/-- Handler GET /help-alerts/:id: prune by age, then look the alert up by
identifier; 404 when it is absent. -/
def getHelpAlertById (now : Int) (id : String) (l : List HelpAlert) :
    Except Err HelpAlert × List HelpAlert :=
  let l2 := pruneHelpAlerts now l
  match l2.find? (fun a => a.id == id) with
  | some alert => (Except.ok alert, l2)
  | none => (Except.error Err.notFound, l2)

/-- The in-place mutation performed on the alert found by the accept
handler: overwrite the four acceptance fields, leave everything else. -/
def setAccepted (now : Int) (helperId : String)
    (helperName helperPhone : Option String) (a : HelpAlert) : HelpAlert :=
  { a with acceptedById := some helperId,
           acceptedByName := some (orDefault helperName "Helper"),
           acceptedPhone := orNull helperPhone,
           acceptedAt := some now }

/-- Apply f to the first element satisfying p, keep the rest: the effect
of mutating the object returned by Array.prototype.find. -/
def updateFirst {α : Type} (p : α → Bool) (f : α → α) : List α → List α
  | [] => []
  | a :: rest => if p a then f a :: rest else a :: updateFirst p f rest

/-- Handler POST /help-alerts/:id/accept: validate helperId, prune by
age, find the alert (404 when gone), then unconditionally overwrite its
acceptance fields. -/
def acceptHelpAlert (now : Int) (id : String)
    (helperId helperName helperPhone : Option String) (l : List HelpAlert) :
    Except Err HelpAlert × List HelpAlert :=
  match helperId with
  | some h =>
    if h = "" then (Except.error Err.validation, l)
    else
      let l2 := pruneHelpAlerts now l
      match l2.find? (fun a => a.id == id) with
      | some alert =>
        (Except.ok (setAccepted now h helperName helperPhone alert),
          updateFirst (fun a => a.id == id)
            (setAccepted now h helperName helperPhone) l2)
      | none => (Except.error Err.notFound, l2)
  | none => (Except.error Err.validation, l)

/-- A private message scoped to one help alert. -/
structure DirectMessage where
  id : String
  alertId : String
  fromId : String
  fromName : String
  text : String
  timestamp : Int

/-- pruneDirectMessages from index.js: shift from the front while the
oldest entry is over DIRECT_MSG_TTL_MS old. -/
def pruneDirectMessages (now : Int) (l : List DirectMessage) : List DirectMessage :=
  l.dropWhile (fun m => decide (m.timestamp < now - DIRECT_MSG_TTL_MS))

/-- Handler GET /help-alerts/:id/messages: prune by age, filter to the
alert, sort ascending by timestamp.  Never fails. -/
def getDirectMessages (now : Int) (alertId : String) (l : List DirectMessage) :
    List DirectMessage × List DirectMessage :=
  let l2 := pruneDirectMessages now l
  ((l2.filter (fun m => m.alertId == alertId)).mergeSort
    (fun a b => decide (a.timestamp ≤ b.timestamp)), l2)

/-- Handler POST /help-alerts/:id/messages: validate, prune by age,
append the new message (text truncated to 500 characters). -/
def postDirectMessage (now : Int) (alertId newId : String)
    (fromId fromName text : Option String) (l : List DirectMessage) :
    Except Err DirectMessage × List DirectMessage :=
  match fromId, text with
  | some f, some t =>
    if f = "" ∨ t = "" then (Except.error Err.validation, l)
    else
      let l2 := pruneDirectMessages now l
      let msg : DirectMessage :=
        { id := newId, alertId := alertId, fromId := f,
          fromName := orDefault fromName "User",
          text := slice500 t, timestamp := now }
      (Except.ok msg, l2 ++ [msg])
  | _, _ => (Except.error Err.validation, l)

/-- The four independent registries of the process. -/
structure ServerState where
  presenceMap : List PresenceRecord
  messages : List PublicMessage
  helpAlerts : List HelpAlert
  directMessages : List DirectMessage

/-- One inbound request, one constructor per route. -/
inductive Request
  | presenceReport (id name profession : Option String)
      (latitude longitude : Option ℝ)
  | nearbyUsers (lat lng : Option ℝ) (radiusKm : ℝ) (selfId : Option String)
  | messagePost (newId : String) (fromId fromName profession : Option String)
      (latitude longitude : Option ℝ) (text : Option String)
  | messagesQuery (lat lng : Option ℝ) (radiusKm : ℝ)
  | helpAlertPost (newId : String)
      (fromId fromName phone type message : Option String)
      (latitude longitude : Option ℝ)
  | helpAlertsQuery (lat lng : Option ℝ) (radiusKm : ℝ)
      (excludeId : Option String)
  | helpAlertGet (id : String)
  | helpAlertAccept (id : String) (helperId helperName helperPhone : Option String)
  | directMessagesGet (alertId : String)
  | directMessagePost (alertId newId : String)
      (fromId fromName text : Option String)

/-- A successful response payload. -/
inductive Resp
  | ack
  | users (l : List NearbyUser)
  | message (m : PublicMessage)
  | messageList (l : List PublicMessage)
  | alert (a : HelpAlert)
  | alertList (l : List HelpAlert)
  | direct (m : DirectMessage)
  | directList (l : List DirectMessage)

/-- Dispatch one request against the whole server state: each route
reads and writes exactly one registry. -/
noncomputable def step (now : Int) (req : Request) (st : ServerState) :
    Except Err Resp × ServerState :=
  match req with
  | .presenceReport id name profession lat lng =>
    let r := postPresence now id name profession lat lng st.presenceMap
    (r.1.map (fun _ => Resp.ack), { st with presenceMap := r.2 })
  | .nearbyUsers lat lng radius selfId =>
    let r := getNearbyUsers now lat lng radius selfId st.presenceMap
    (r.1.map Resp.users, { st with presenceMap := r.2 })
  | .messagePost newId fromId fromName profession lat lng text =>
    let r := postMessage now newId fromId fromName profession lat lng text st.messages
    (r.1.map Resp.message, { st with messages := r.2 })
  | .messagesQuery lat lng radius =>
    let r := getMessages now lat lng radius st.messages
    (r.1.map Resp.messageList, { st with messages := r.2 })
  | .helpAlertPost newId fromId fromName phone type message lat lng =>
    let r := postHelpAlert now newId fromId fromName phone type message lat lng st.helpAlerts
    (r.1.map Resp.alert, { st with helpAlerts := r.2 })
  | .helpAlertsQuery lat lng radius excludeId =>
    let r := getHelpAlerts now lat lng radius excludeId st.helpAlerts
    (r.1.map Resp.alertList, { st with helpAlerts := r.2 })
  | .helpAlertGet id =>
    let r := getHelpAlertById now id st.helpAlerts
    (r.1.map Resp.alert, { st with helpAlerts := r.2 })
  | .helpAlertAccept id helperId helperName helperPhone =>
    let r := acceptHelpAlert now id helperId helperName helperPhone st.helpAlerts
    (r.1.map Resp.alert, { st with helpAlerts := r.2 })
  | .directMessagesGet alertId =>
    let r := getDirectMessages now alertId st.directMessages
    (Except.ok (Resp.directList r.1), { st with directMessages := r.2 })
  | .directMessagePost alertId newId fromId fromName text =>
    let r := postDirectMessage now alertId newId fromId fromName text st.directMessages
    (r.1.map Resp.direct, { st with directMessages := r.2 })

/-- The data of one POST /messages request, identifier generation and
clock resolved. -/
structure MsgReq where
  now : Int
  newId : String
  fromId : Option String
  fromName : Option String
  profession : Option String
  latitude : Option ℝ
  longitude : Option ℝ
  text : Option String

/-- The message log left behind by one POST /messages request (the log is
unchanged when the request fails validation). -/
def applyPost (r : MsgReq) (l : List PublicMessage) : List PublicMessage :=
  (postMessage r.now r.newId r.fromId r.fromName r.profession
    r.latitude r.longitude r.text l).2

/-- The message log after a sequence of POST /messages requests. -/
def runPosts (rs : List MsgReq) (l : List PublicMessage) : List PublicMessage :=
  rs.foldl (fun acc r => applyPost r acc) l

/-- A concrete help alert used as witness input. -/
def alertA : HelpAlert :=
  { id := "A1", type := "HELP", message := "need water",
    latitude := 0, longitude := 0,
    requestedById := "d1", requestedByName := "Riya",
    requestedPhone := none, timestamp := 0,
    acceptedById := none, acceptedByName := none,
    acceptedPhone := none, acceptedAt := none }

/-- A concrete stale presence record used as witness input. -/
def presOld : PresenceRecord :=
  { id := "d9", name := "Guest user", profession := "Citizen",
    latitude := 0, longitude := 0, lastSeen := 0 }

/-- A concrete server state holding one expired help alert. -/
def stOneAlert : ServerState :=
  { presenceMap := [], messages := [], helpAlerts := [alertA],
    directMessages := [] }

/-- The empty server state. -/
def stEmpty : ServerState :=
  { presenceMap := [], messages := [], helpAlerts := [], directMessages := [] }

/-- A concrete 501-character string used as witness input. -/
def bigText : String := String.mk (List.replicate 501 'a')

/-- A concrete public message used as witness input. -/
def msgB : PublicMessage :=
  { id := "m1", fromId := "d1", fromName := "Guest user",
    profession := "Citizen", latitude := 0, longitude := 0,
    text := "hello", timestamp := 0 }

/-- The concrete message POST /messages stores for sender d1 and text hi
at time 0. -/
def msgC : PublicMessage :=
  { id := "m1", fromId := "d1", fromName := "Guest user",
    profession := "Citizen", latitude := 0, longitude := 0,
    text := slice500 "hi", timestamp := 0 }

theorem atan2_zero_one : atan2 0 1 = 0 := by
  unfold atan2
  rw [if_pos (by norm_num : (0 : ℝ) < 1)]
  simp

theorem haversineKm_comm (lat1 lon1 lat2 lon2 : ℝ) :
    haversineKm lat1 lon1 lat2 lon2 = haversineKm lat2 lon2 lat1 lon1 := by
  have ha :
      Real.sin ((lat2 - lat1) * Real.pi / 180 / 2) *
          Real.sin ((lat2 - lat1) * Real.pi / 180 / 2) +
        Real.cos (lat1 * Real.pi / 180) * Real.cos (lat2 * Real.pi / 180) *
          Real.sin ((lon2 - lon1) * Real.pi / 180 / 2) *
          Real.sin ((lon2 - lon1) * Real.pi / 180 / 2) =
      Real.sin ((lat1 - lat2) * Real.pi / 180 / 2) *
          Real.sin ((lat1 - lat2) * Real.pi / 180 / 2) +
        Real.cos (lat2 * Real.pi / 180) * Real.cos (lat1 * Real.pi / 180) *
          Real.sin ((lon1 - lon2) * Real.pi / 180 / 2) *
          Real.sin ((lon1 - lon2) * Real.pi / 180 / 2) := by
    have h1 : (lat2 - lat1) * Real.pi / 180 / 2 =
        -((lat1 - lat2) * Real.pi / 180 / 2) := by ring
    have h2 : (lon2 - lon1) * Real.pi / 180 / 2 =
        -((lon1 - lon2) * Real.pi / 180 / 2) := by ring
    rw [h1, h2]
    simp only [Real.sin_neg]
    ring
  simp only [haversineKm]
  rw [ha]

theorem haversineKm_self (lat lon : ℝ) : haversineKm lat lon lat lon = 0 := by
  simp [haversineKm, atan2_zero_one]

theorem updateFirst_append {α : Type} (p : α → Bool) (f : α → α)
    (l1 l2 : List α) (a : α) (h1 : ∀ b ∈ l1, ¬ p b) (ha : p a) :
    updateFirst p f (l1 ++ a :: l2) = l1 ++ f a :: l2 := by
  induction l1 with
  | nil => simp [updateFirst, ha]
  | cons b l1 ih =>
    have hb : ¬ p b = true := h1 b (by simp)
    simp only [List.cons_append, updateFirst, if_neg hb]
    exact congrArg (fun t => b :: t) (ih (fun c hc => h1 c (by simp [hc])))

theorem dropWhile_append_cons {α : Type} (q : α → Bool) (l1 l2 : List α) (a : α)
    (ha : ¬ q a) :
    List.dropWhile q (l1 ++ a :: l2) = List.dropWhile q l1 ++ a :: l2 := by
  induction l1 with
  | nil => simp [List.dropWhile_cons, ha]
  | cons b l1 ih =>
    by_cases hb : q b
    · simpa [List.dropWhile_cons, hb] using ih
    · simp [List.dropWhile_cons, hb]

theorem find?_append_cons {α : Type} (p : α → Bool) (l1 l2 : List α) (a : α)
    (h1 : ∀ b ∈ l1, ¬ p b) (ha : p a) :
    List.find? p (l1 ++ a :: l2) = some a := by
  induction l1 with
  | nil => simpa using List.find?_cons_of_pos l2 ha
  | cons b l1 ih =>
    have hb : ¬ p b = true := h1 b (by simp)
    simp only [List.cons_append]
    rw [List.find?_cons_of_neg _ (by simpa using hb)]
    exact ih (fun c hc => h1 c (by simp [hc]))

theorem dropWhile_eq_drop_exists {α : Type} (q : α → Bool) (l : List α) :
    ∃ k, List.dropWhile q l = l.drop k := by
  induction l with
  | nil => exact ⟨0, rfl⟩
  | cons a l ih =>
    by_cases h : q a
    · obtain ⟨k, hk⟩ := ih
      exact ⟨k + 1, by simp [List.dropWhile_cons, h, hk]⟩
    · exact ⟨0, by simp [List.dropWhile_cons, h]⟩

theorem mem_prunePresence {now : Int} {m : List PresenceRecord}
    {u : PresenceRecord} :
    u ∈ prunePresence now m ↔ u ∈ m ∧ now - u.lastSeen ≤ STALE_MS := by
  simp [prunePresence, List.mem_filter, not_lt]

theorem mem_mapSet (m : List PresenceRecord) (r : PresenceRecord) :
    r ∈ mapSet m r := by
  unfold mapSet
  split
  · rename_i h
    rw [List.any_eq_true] at h
    obtain ⟨u, hu, he⟩ := h
    rw [List.mem_map]
    exact ⟨u, hu, by simp [he]⟩
  · simp

theorem except_map_error {ε α β : Type} (f : α → β) (x : Except ε α) (e : ε) :
    x.map f = Except.error e ↔ x = Except.error e := by
  cases x <;> simp [Except.map]

theorem pairwise_mergeSort_of {α : Type} (le : α → α → Bool)
    (trans : ∀ a b c : α, le a b → le b c → le a c)
    (total : ∀ a b : α, le a b || le b a) (l : List α) :
    List.Pairwise (fun a b => le a b = true) (l.mergeSort le) :=
  List.sorted_mergeSort trans total l

theorem slice500_length {t : String} (h : 500 < t.length) :
    (slice500 t).length = 500 := by
  have hd : 500 < t.data.length := h
  have : (slice500 t).length = (t.data.take 500).length := rfl
  rw [this, List.length_take]
  omega

theorem ne_empty_of_long {t : String} (h : 500 < t.length) : t ≠ "" := by
  intro he
  have h0 : t.length = 0 := by rw [he]; rfl
  omega

/-- Claim C6: the haversine distance is symmetric in its two coordinate
pairs, and the distance from any point to itself is zero. -/
theorem haversine_symm_and_self_zero :
    (∀ lat1 lon1 lat2 lon2 : ℝ,
      haversineKm lat1 lon1 lat2 lon2 = haversineKm lat2 lon2 lat1 lon1) ∧
    (∀ lat lon : ℝ, haversineKm lat lon lat lon = 0) :=
  ⟨haversineKm_comm, haversineKm_self⟩

/-- Claim C7: GetById on the help-alert registry first prunes alerts
older than 1 hour, then fails with NotFoundError exactly when no alert
with the requested identifier remains after the prune (including when the
prune just removed it); otherwise it returns the found alert, the state
in both cases being the pruned registry. -/
theorem getById_prunes_then_notFound_iff (now : Int) (id : String)
    (l : List HelpAlert) :
    (getHelpAlertById now id l
        = (Except.error Err.notFound, pruneHelpAlerts now l)
      ↔ ∀ a ∈ pruneHelpAlerts now l, a.id ≠ id) ∧
    (∀ a, (pruneHelpAlerts now l).find? (fun b => b.id == id) = some a →
      getHelpAlertById now id l = (Except.ok a, pruneHelpAlerts now l)) := by
  constructor
  · cases hf : (pruneHelpAlerts now l).find? (fun a => a.id == id) with
    | some a =>
      have hres : getHelpAlertById now id l = (Except.ok a, pruneHelpAlerts now l) := by
        simp only [getHelpAlertById, hf]
      have hmem := List.mem_of_find?_eq_some hf
      have hp := List.find?_some hf
      simp only [beq_iff_eq] at hp
      rw [hres]
      constructor
      · intro h
        exact absurd (congrArg Prod.fst h) (by simp)
      · intro h
        exact absurd hp (h a hmem)
    | none =>
      have hres : getHelpAlertById now id l
          = (Except.error Err.notFound, pruneHelpAlerts now l) := by
        simp only [getHelpAlertById, hf]
      rw [List.find?_eq_none] at hf
      rw [hres]
      constructor
      · intro _ a ha
        simpa using hf a ha
      · intro _
        rfl
  · intro a ha
    simp only [getHelpAlertById, ha]

/-- Witness for C7 at a concrete input: a registry holding one live alert
with identifier A1, looked up at time 0, is found and returned with the
pruned registry. -/
theorem getById_prunes_then_notFound_iff_witness :
    getHelpAlertById 0 "A1" [alertA] = (Except.ok alertA, pruneHelpAlerts 0 [alertA]) :=
  (getById_prunes_then_notFound_iff 0 "A1" [alertA]).2 alertA (by rfl)

theorem msg_mem_capped (nw : Int) (lm : List PublicMessage) (msg : PublicMessage)
    (hmsg : ¬ msg.timestamp < nw - MESSAGE_TTL_MS) :
    msg ∈ (if MAX_MESSAGES < (pruneMessages nw (lm ++ [msg])).length then
            (pruneMessages nw (lm ++ [msg])).drop
              ((pruneMessages nw (lm ++ [msg])).length - MAX_MESSAGES)
          else pruneMessages nw (lm ++ [msg])) := by
  have h1 : pruneMessages nw (lm ++ [msg]) =
      List.dropWhile (fun m => decide (m.timestamp < nw - MESSAGE_TTL_MS)) lm
        ++ [msg] := by
    unfold pruneMessages
    exact dropWhile_append_cons _ lm [] msg (by simpa using hmsg)
  rw [h1]
  split
  · rename_i hlen
    have hle :
        (List.dropWhile (fun m => decide (m.timestamp < nw - MESSAGE_TTL_MS)) lm
            ++ [msg]).length - MAX_MESSAGES ≤
          (List.dropWhile (fun m => decide (m.timestamp < nw - MESSAGE_TTL_MS)) lm).length := by
      simp only [List.length_append, List.length_cons, List.length_nil,
        MAX_MESSAGES] at hlen ⊢
      omega
    rw [List.drop_append_of_le_length hle]
    simp
  · simp

theorem alert_mem_pruned (nw : Int) (l : List HelpAlert) (a : HelpAlert)
    (ha : ¬ a.timestamp < nw - HELP_ALERT_TTL_MS) :
    a ∈ pruneHelpAlerts nw (l ++ [a]) := by
  unfold pruneHelpAlerts
  rw [dropWhile_append_cons _ l [] a (by simpa using ha)]
  simp

/-- Claim C8: a text (or message) field longer than 500 characters never
causes rejection: the post succeeds, the stored and returned record's
text is the 500-character truncation of the input, for the public message
log, the help-alert registry and the direct-message log alike. -/
theorem long_text_truncated (nw : Int) (nid aid : String) (f t : String)
    (fn pf ph ty : Option String) (la ln : ℝ)
    (lm : List PublicMessage) (lh : List HelpAlert) (ld : List DirectMessage)
    (hf : f ≠ "") (ht : 500 < t.length) :
    (∃ m, (postMessage nw nid (some f) fn pf (some la) (some ln) (some t) lm).1
        = Except.ok m ∧ m.text = slice500 t ∧
        m ∈ (postMessage nw nid (some f) fn pf (some la) (some ln) (some t) lm).2) ∧
    (∃ a, (postHelpAlert nw nid (some f) fn ph ty (some t) (some la) (some ln) lh).1
        = Except.ok a ∧ a.message = slice500 t ∧
        a ∈ (postHelpAlert nw nid (some f) fn ph ty (some t) (some la) (some ln) lh).2) ∧
    (∃ m, (postDirectMessage nw aid nid (some f) fn (some t) ld).1
        = Except.ok m ∧ m.text = slice500 t ∧
        m ∈ (postDirectMessage nw aid nid (some f) fn (some t) ld).2) ∧
    (slice500 t).length = 500 := by
  have htne : t ≠ "" := ne_empty_of_long ht
  have hcond : ¬(f = "" ∨ t = "") := by
    rintro (h | h)
    · exact hf h
    · exact htne h
  refine ⟨?_, ?_, ?_, slice500_length ht⟩
  · simp only [postMessage, if_neg hcond]
    refine ⟨_, rfl, rfl, ?_⟩
    exact msg_mem_capped nw lm _ (by simp only [MESSAGE_TTL_MS]; omega)
  · simp only [postHelpAlert, if_neg hcond]
    refine ⟨_, rfl, rfl, ?_⟩
    exact alert_mem_pruned nw lh _ (by simp only [HELP_ALERT_TTL_MS]; omega)
  · simp only [postDirectMessage, if_neg hcond]
    exact ⟨_, rfl, rfl, by simp⟩

/-- Witness for C8 at a concrete input: a 501-character text from sender
f1 is accepted and truncated to exactly 500 characters. -/
theorem long_text_truncated_witness :
    "f1" ≠ "" ∧ 500 < bigText.length ∧ (slice500 bigText).length = 500 := by
  have h1 : ("f1" : String) ≠ "" := by decide
  have h2 : 500 < bigText.length := by
    have h : bigText.length = (List.replicate 501 'a').length := rfl
    rw [h, List.length_replicate]
    omega
  exact ⟨h1, h2,
    (long_text_truncated 0 "m1" "A1" "f1" bigText none none none none 0 0
      [] [] [] h1 h2).2.2.2⟩

/-- Claim C5: every successful public-message query returns its results
ascending by creation timestamp (oldest first), while every successful
help-alert query returns its results descending by creation timestamp
(newest first) — opposite ordering conventions. -/
theorem query_result_orderings :
    (∀ (now : Int) (lat lng radius : ℝ) (l res : List PublicMessage),
      (getMessages now (some lat) (some lng) radius l).1 = Except.ok res →
      List.Pairwise (fun a b => a.timestamp ≤ b.timestamp) res) ∧
    (∀ (now : Int) (lat lng radius : ℝ) (ex : Option String)
      (l res : List HelpAlert),
      (getHelpAlerts now (some lat) (some lng) radius ex l).1 = Except.ok res →
      List.Pairwise (fun a b => b.timestamp ≤ a.timestamp) res) := by
  constructor
  · intro now lat lng radius l res hres
    simp only [getMessages, Except.ok.injEq] at hres
    subst hres
    have h := pairwise_mergeSort_of
      (fun a b : PublicMessage => decide (a.timestamp ≤ b.timestamp))
      (fun a b c hab hbc => by
        simp only [decide_eq_true_eq] at hab hbc ⊢
        omega)
      (fun a b => by
        simp only [Bool.or_eq_true, decide_eq_true_eq]
        omega)
      ((pruneMessages now l).filter (fun m =>
        decide (haversineKm lat lng m.latitude m.longitude ≤ radius)))
    exact h.imp (fun hab => by simpa using hab)
  · intro now lat lng radius ex l res hres
    simp only [getHelpAlerts, Except.ok.injEq] at hres
    subst hres
    have h := pairwise_mergeSort_of
      (fun a b : HelpAlert => decide (b.timestamp ≤ a.timestamp))
      (fun a b c hab hbc => by
        simp only [decide_eq_true_eq] at hab hbc ⊢
        omega)
      (fun a b => by
        simp only [Bool.or_eq_true, decide_eq_true_eq]
        omega)
      ((pruneHelpAlerts now l).filter (fun a =>
        !idMatches ex a.requestedById &&
          decide (haversineKm lat lng a.latitude a.longitude ≤ radius)))
    exact h.imp (fun hab => by simpa using hab)

/-- Witness for C5 at a concrete input: a query at the location of the
single stored message (respectively alert) returns the singleton result,
which is sorted under both conventions. -/
theorem query_result_orderings_witness :
    List.Pairwise (fun a b : PublicMessage => a.timestamp ≤ b.timestamp) [msgB] ∧
    List.Pairwise (fun a b : HelpAlert => b.timestamp ≤ a.timestamp) [alertA] := by
  constructor
  · refine query_result_orderings.1 0 0 0 5 [msgB] [msgB] ?_
    have hd : haversineKm 0 0 msgB.latitude msgB.longitude ≤ 5 := by
      rw [show msgB.latitude = (0 : ℝ) from rfl,
        show msgB.longitude = (0 : ℝ) from rfl, haversineKm_self]
      norm_num
    have hp : pruneMessages 0 [msgB] = [msgB] := rfl
    simp [getMessages, hp, List.filter_cons, hd]
  · refine query_result_orderings.2 0 0 0 5 none [alertA] [alertA] ?_
    have hd : haversineKm 0 0 alertA.latitude alertA.longitude ≤ 5 := by
      rw [show alertA.latitude = (0 : ℝ) from rfl,
        show alertA.longitude = (0 : ℝ) from rfl, haversineKm_self]
      norm_num
    have hp : pruneHelpAlerts 0 [alertA] = [alertA] := rfl
    have hm : idMatches none alertA.requestedById = false := rfl
    simp [getHelpAlerts, hp, List.filter_cons, hd, hm]

/-- Claim C2: after a valid presence report, an immediate nearby-users
query at the same coordinates with a non-negative radius succeeds and its
result contains the reporter's record annotated with distance zero,
unless the query names the reporter's identity as selfId. -/
theorem report_then_nearby_self (now : Int) (i : String) (nm pf : Option String)
    (lat lng radius : ℝ) (selfId : Option String) (s : List PresenceRecord)
    (hi : i ≠ "") (hr : 0 ≤ radius) (hself : idMatches selfId i = false) :
    ∃ s1 res,
      postPresence now (some i) nm pf (some lat) (some lng) s
        = (Except.ok (), s1) ∧
      (getNearbyUsers now (some lat) (some lng) radius selfId s1).1
        = Except.ok res ∧
      ∃ e ∈ res, e.id = i ∧ e.distanceKm = 0 := by
  set r : PresenceRecord :=
    { id := i, name := orDefault nm "Guest user",
      profession := orDefault pf "Citizen",
      latitude := lat, longitude := lng, lastSeen := now } with hrdef
  have hpost : postPresence now (some i) nm pf (some lat) (some lng) s
      = (Except.ok (), prunePresence now (mapSet s r)) := by
    simp only [postPresence, if_neg hi]
  have hfresh : now - r.lastSeen ≤ STALE_MS := by
    rw [show r.lastSeen = now from rfl]
    simp only [STALE_MS]
    omega
  have hmem1 : r ∈ prunePresence now (mapSet s r) :=
    mem_prunePresence.mpr ⟨mem_mapSet s r, hfresh⟩
  have hmem2 : r ∈ prunePresence now (prunePresence now (mapSet s r)) :=
    mem_prunePresence.mpr ⟨hmem1, hfresh⟩
  have hdist : haversineKm lat lng r.latitude r.longitude = 0 := by
    rw [show r.latitude = lat from rfl, show r.longitude = lng from rfl]
    exact haversineKm_self lat lng
  refine ⟨prunePresence now (mapSet s r), _, hpost, rfl, ?_⟩
  refine ⟨{ id := r.id, name := r.name, profession := r.profession,
            latitude := r.latitude, longitude := r.longitude,
            distanceKm := haversineKm lat lng r.latitude r.longitude },
          List.mem_filterMap.mpr ⟨r, hmem2, ?_⟩, rfl, hdist⟩
  simp [show r.id = i from rfl, hself, hdist, hr]

/-- Witness for C2 at a concrete input: device d1 reports at the origin
into an empty registry and an immediate query at the origin with radius 5
returns it at distance zero. -/
theorem report_then_nearby_self_witness :
    ("d1" : String) ≠ "" ∧ (0 : ℝ) ≤ 5 ∧ idMatches none "d1" = false ∧
    (∃ s1 res,
      postPresence 0 (some "d1") none none (some 0) (some 0) []
        = (Except.ok (), s1) ∧
      (getNearbyUsers 0 (some 0) (some 0) 5 none s1).1 = Except.ok res ∧
      ∃ e ∈ res, e.id = "d1" ∧ e.distanceKm = 0) := by
  refine ⟨by decide, by norm_num, rfl, ?_⟩
  exact report_then_nearby_self 0 "d1" none none 0 0 5 none []
    (by decide) (by norm_num) rfl

/-- Claim C4: a presence record whose age exceeds the 2-minute staleness
threshold at time now is removed by the prune that every query or report
at any time nowq ≥ now performs: it survives into no later registry
state, and every row of a later nearby-users result is drawn from a
record within the staleness threshold. -/
theorem stale_presence_never_returned (s : List PresenceRecord)
    (u : PresenceRecord) (now nowq : Int)
    (hu : u ∈ s) (hstale : STALE_MS < now - u.lastSeen) (hle : now ≤ nowq) :
    u ∉ prunePresence nowq s ∧
    (∀ (lat lng radius : ℝ) (selfId : Option String) (res : List NearbyUser),
      (getNearbyUsers nowq (some lat) (some lng) radius selfId s).1
        = Except.ok res →
      ∀ e ∈ res, ∃ v ∈ s, nowq - v.lastSeen ≤ STALE_MS ∧ e.id = v.id ∧
        e.latitude = v.latitude ∧ e.longitude = v.longitude) ∧
    (∀ (i : String) (nm pf : Option String) (la ln : ℝ)
      (s1 : List PresenceRecord),
      postPresence nowq (some i) nm pf (some la) (some ln) s
        = (Except.ok (), s1) → u ∉ s1) := by
  have hnot : ∀ m : List PresenceRecord, u ∉ prunePresence nowq m := by
    intro m hm
    have := (mem_prunePresence.mp hm).2
    omega
  refine ⟨hnot s, ?_, ?_⟩
  · intro lat lng radius selfId res hres e he
    simp only [getNearbyUsers, Except.ok.injEq] at hres
    subst hres
    rcases List.mem_filterMap.mp he with ⟨v, hv, hfv⟩
    have hv2 := mem_prunePresence.mp hv
    refine ⟨v, hv2.1, hv2.2, ?_⟩
    split at hfv
    · cases hfv
    · split at hfv
      · cases hfv
        exact ⟨rfl, rfl, rfl⟩
      · cases hfv
  · intro i nm pf la ln s1 hpost
    simp only [postPresence] at hpost
    by_cases hi : i = ""
    · rw [if_pos hi] at hpost
      simp at hpost
    · rw [if_neg hi] at hpost
      have hs1 : s1 = prunePresence nowq (mapSet s
          { id := i, name := orDefault nm "Guest user",
            profession := orDefault pf "Citizen",
            latitude := la, longitude := ln, lastSeen := nowq }) :=
        (congrArg Prod.snd hpost).symm
      rw [hs1]
      exact hnot _

/-- Witness for C4 at a concrete input: a record last seen at time 0 is
stale at time 200000 (beyond the 2-minute threshold) and is gone from the
registry any operation at that time leaves behind. -/
theorem stale_presence_never_returned_witness :
    presOld ∈ [presOld] ∧ STALE_MS < 200000 - presOld.lastSeen ∧
    presOld ∉ prunePresence 200000 [presOld] := by
  have h1 : presOld ∈ [presOld] := List.mem_cons_self presOld []
  have h2 : STALE_MS < 200000 - presOld.lastSeen := by decide
  exact ⟨h1, h2,
    (stale_presence_never_returned [presOld] presOld 200000 200000 h1 h2
      (le_refl 200000)).1⟩

theorem postMessage_length (nw : Int) (nid : String) (fid fnm pf : Option String)
    (la ln : Option ℝ) (tx : Option String) (l : List PublicMessage)
    (h : l.length ≤ MAX_MESSAGES) :
    (postMessage nw nid fid fnm pf la ln tx l).2.length ≤ MAX_MESSAGES := by
  unfold postMessage
  split
  · split
    · exact h
    · dsimp only
      split
      · rw [List.length_drop]
        omega
      · rename_i hlen
        exact Nat.le_of_not_lt hlen
  · exact h

theorem runPosts_length (rs : List MsgReq) :
    ∀ l : List PublicMessage, l.length ≤ MAX_MESSAGES →
      (runPosts rs l).length ≤ MAX_MESSAGES := by
  induction rs with
  | nil =>
    intro l h
    exact h
  | cons r rs ih =>
    intro l h
    have hstep : runPosts (r :: rs) l = runPosts rs (applyPost r l) := by
      simp [runPosts]
    rw [hstep]
    exact ih _ (postMessage_length r.now r.newId r.fromId r.fromName
      r.profession r.latitude r.longitude r.text l h)

theorem capped_is_drop (nw : Int) (l : List PublicMessage) (msg : PublicMessage) :
    ∃ k, (if MAX_MESSAGES < (pruneMessages nw (l ++ [msg])).length then
            (pruneMessages nw (l ++ [msg])).drop
              ((pruneMessages nw (l ++ [msg])).length - MAX_MESSAGES)
          else pruneMessages nw (l ++ [msg])) = (l ++ [msg]).drop k := by
  obtain ⟨k1, hk1⟩ := dropWhile_eq_drop_exists
    (fun mm : PublicMessage => decide (mm.timestamp < nw - MESSAGE_TTL_MS))
    (l ++ [msg])
  have hprune : pruneMessages nw (l ++ [msg]) = (l ++ [msg]).drop k1 := hk1
  rw [hprune]
  split
  · exact ⟨k1 + (((l ++ [msg]).drop k1).length - MAX_MESSAGES),
      List.drop_drop _ _ _⟩
  · exact ⟨k1, rfl⟩

theorem postMessage_snd_shape (nw : Int) (nid : String)
    (fid fnm pf : Option String) (la ln : Option ℝ) (tx : Option String)
    (l : List PublicMessage) :
    ((∃ e, (postMessage nw nid fid fnm pf la ln tx l).1 = Except.error e) ∧
      (postMessage nw nid fid fnm pf la ln tx l).2 = l) ∨
    (∃ m k, (postMessage nw nid fid fnm pf la ln tx l).1 = Except.ok m ∧
      (postMessage nw nid fid fnm pf la ln tx l).2 = (l ++ [m]).drop k) := by
  unfold postMessage
  split
  · split
    · exact Or.inl ⟨⟨Err.validation, rfl⟩, rfl⟩
    · right
      obtain ⟨k, hk⟩ := capped_is_drop nw l _
      exact ⟨_, k, rfl, hk⟩
  · exact Or.inl ⟨⟨Err.validation, rfl⟩, rfl⟩

theorem sorted_take_drop {α : Type} (key : α → Int) (l : List α) (k : Nat)
    (h : List.Pairwise (fun a b => key a ≤ key b) l) :
    ∀ x ∈ l.take k, ∀ y ∈ l.drop k, key x ≤ key y := by
  have hsplit := List.take_append_drop k l
  rw [← hsplit] at h
  exact (List.pairwise_append.mp h).2.2

/-- Claim C3: after any sequence of POST /messages requests starting from
the empty log, the log never exceeds 200 entries; moreover every
successful post leaves the log a suffix of the old log plus the new
message, so eviction (by the cap or by the 30-minute age cutoff) removes
entries from the front — under chronological order, those with the
smallest timestamps. -/
theorem message_log_capped_oldest_evicted :
    (∀ rs : List MsgReq, (runPosts rs []).length ≤ MAX_MESSAGES) ∧
    (∀ (nw : Int) (nid : String) (fid fnm pf : Option String)
      (la ln : Option ℝ) (tx : Option String)
      (l l2 : List PublicMessage) (m : PublicMessage),
      postMessage nw nid fid fnm pf la ln tx l = (Except.ok m, l2) →
      ∃ k, l2 = (l ++ [m]).drop k ∧
        (List.Pairwise (fun a b => a.timestamp ≤ b.timestamp) (l ++ [m]) →
          ∀ x ∈ (l ++ [m]).take k, ∀ y ∈ l2, x.timestamp ≤ y.timestamp)) := by
  constructor
  · intro rs
    exact runPosts_length rs [] (Nat.zero_le MAX_MESSAGES)
  · intro nw nid fid fnm pf la ln tx l l2 m h
    rcases postMessage_snd_shape nw nid fid fnm pf la ln tx l with
      ⟨⟨e, he⟩, _⟩ | ⟨m2, k, h1, h2⟩
    · rw [h] at he
      cases he
    · rw [h] at h1 h2
      have hm : m2 = m := by
        have h1s : Except.ok (ε := Err) m = Except.ok m2 := h1
        simpa using h1s.symm
      subst hm
      have hl2 : l2 = (l ++ [m2]).drop k := h2
      refine ⟨k, hl2, ?_⟩
      intro hsorted x hx y hy
      rw [hl2] at hy
      exact sorted_take_drop (fun a => a.timestamp) (l ++ [m2]) k hsorted x hx y hy

/-- Witness for C3 at a concrete input: posting one message to the empty
log succeeds and leaves the singleton log, a suffix of the appended log,
trivially front-evicted. -/
theorem message_log_capped_oldest_evicted_witness :
    ∃ k, [msgC] = ([] ++ [msgC]).drop k ∧
      (List.Pairwise (fun a b : PublicMessage => a.timestamp ≤ b.timestamp)
        ([] ++ [msgC]) →
        ∀ x ∈ ([] ++ [msgC]).take k, ∀ y ∈ [msgC], x.timestamp ≤ y.timestamp) :=
  message_log_capped_oldest_evicted.2 0 "m1" (some "d1") none none (some 0)
    (some 0) (some "hi") [] [msgC] msgC rfl

theorem acceptHelpAlert_ok (now : Int) (id h : String) (hn hp : Option String)
    (s : List HelpAlert) (a : HelpAlert)
    (hne : h ≠ "")
    (hfind : (pruneHelpAlerts now s).find? (fun b => b.id == id) = some a) :
    ∃ l1 l2,
      pruneHelpAlerts now s = l1 ++ a :: l2 ∧
      (∀ b ∈ l1, (b.id == id) = false) ∧
      (a.id == id) = true ∧
      acceptHelpAlert now id (some h) hn hp s =
        (Except.ok (setAccepted now h hn hp a),
         l1 ++ setAccepted now h hn hp a :: l2) := by
  obtain ⟨hpa, l1, l2, hsplit, hl1⟩ := List.find?_eq_some.mp hfind
  have hl1b : ∀ b ∈ l1, ¬ ((fun b => b.id == id) b = true) := by
    intro b hb
    simpa using hl1 b hb
  refine ⟨l1, l2, hsplit, fun b hb => by simpa using hl1 b hb, hpa, ?_⟩
  simp only [acceptHelpAlert, if_neg hne, hfind]
  rw [hsplit, updateFirst_append _ _ l1 l2 a hl1b hpa]

/-- Claim C1: accepting a present help alert with a non-empty helper
identity unconditionally overwrites its acceptance fields — there is no
check that the alert is still open — so a second accept with different
helper data replaces the first helper's data with the second's. -/
theorem accept_overwrites_unconditionally
    (now1 now2 : Int) (s : List HelpAlert) (id : String) (a : HelpAlert)
    (h1 h2 : String) (n1 p1 n2 p2 : Option String)
    (hfind : (pruneHelpAlerts now1 s).find? (fun b => b.id == id) = some a)
    (hh1 : h1 ≠ "") (hh2 : h2 ≠ "")
    (hlive : ¬ a.timestamp < now2 - HELP_ALERT_TTL_MS) :
    ∃ a1 s1,
      acceptHelpAlert now1 id (some h1) n1 p1 s = (Except.ok a1, s1) ∧
      a1.acceptedById = some h1 ∧
      a1.acceptedByName = some (orDefault n1 "Helper") ∧
      a1.acceptedPhone = orNull p1 ∧
      a1.acceptedAt = some now1 ∧
      ∃ a2 s2,
        acceptHelpAlert now2 id (some h2) n2 p2 s1 = (Except.ok a2, s2) ∧
        a2.acceptedById = some h2 ∧
        a2.acceptedByName = some (orDefault n2 "Helper") ∧
        a2.acceptedPhone = orNull p2 ∧
        a2.acceptedAt = some now2 := by
  obtain ⟨l1, l2, hsplit, hl1, hpa, hacc⟩ :=
    acceptHelpAlert_ok now1 id h1 n1 p1 s a hh1 hfind
  refine ⟨setAccepted now1 h1 n1 p1 a,
    l1 ++ setAccepted now1 h1 n1 p1 a :: l2, hacc, rfl, rfl, rfl, rfl, ?_⟩
  have hfind2 : (pruneHelpAlerts now2
      (l1 ++ setAccepted now1 h1 n1 p1 a :: l2)).find?
      (fun b => b.id == id) = some (setAccepted now1 h1 n1 p1 a) := by
    unfold pruneHelpAlerts
    rw [dropWhile_append_cons _ l1 l2 _ (by simpa using hlive)]
    refine find?_append_cons _ _ l2 _ ?_ hpa
    intro b hb
    have hbl1 : b ∈ l1 := List.dropWhile_sublist _ |>.subset hb
    simpa using hl1 b hbl1
  obtain ⟨l1b, l2b, hsplitb, hl1bb, hpab, haccb⟩ :=
    acceptHelpAlert_ok now2 id h2 n2 p2
      (l1 ++ setAccepted now1 h1 n1 p1 a :: l2)
      (setAccepted now1 h1 n1 p1 a) hh2 hfind2
  exact ⟨setAccepted now2 h2 n2 p2 (setAccepted now1 h1 n1 p1 a), _,
    haccb, rfl, rfl, rfl, rfl⟩

/-- Witness for C1 at a concrete input: alert A1 is accepted by d2 and
then re-accepted by d3, whose data replaces d2's. -/
theorem accept_overwrites_unconditionally_witness :
    ∃ a1 s1,
      acceptHelpAlert 0 "A1" (some "d2") none none [alertA]
        = (Except.ok a1, s1) ∧
      a1.acceptedById = some "d2" ∧
      a1.acceptedByName = some (orDefault none "Helper") ∧
      a1.acceptedPhone = orNull none ∧
      a1.acceptedAt = some 0 ∧
      ∃ a2 s2,
        acceptHelpAlert 0 "A1" (some "d3") none none s1 = (Except.ok a2, s2) ∧
        a2.acceptedById = some "d3" ∧
        a2.acceptedByName = some (orDefault none "Helper") ∧
        a2.acceptedPhone = orNull none ∧
        a2.acceptedAt = some 0 :=
  accept_overwrites_unconditionally 0 0 [alertA] "A1" alertA "d2" "d3"
    none none none none rfl (by decide) (by decide) (by decide)

/-- Claim C10: a successful accept changes only the four acceptance
fields of the found alert — its identifier, type, message, coordinates,
requester fields and creation timestamp are preserved — and every other
alert that survives the age prune is left exactly in place. -/
theorem accept_frame (now : Int) (id h : String) (hn hp : Option String)
    (s : List HelpAlert) (a : HelpAlert)
    (hne : h ≠ "")
    (hfind : (pruneHelpAlerts now s).find? (fun b => b.id == id) = some a) :
    ∃ a2 l1 l2,
      acceptHelpAlert now id (some h) hn hp s = (Except.ok a2, l1 ++ a2 :: l2) ∧
      pruneHelpAlerts now s = l1 ++ a :: l2 ∧
      a2.id = a.id ∧ a2.type = a.type ∧ a2.message = a.message ∧
      a2.latitude = a.latitude ∧ a2.longitude = a.longitude ∧
      a2.requestedById = a.requestedById ∧
      a2.requestedByName = a.requestedByName ∧
      a2.requestedPhone = a.requestedPhone ∧
      a2.timestamp = a.timestamp := by
  obtain ⟨l1, l2, hsplit, hl1, hpa, hacc⟩ :=
    acceptHelpAlert_ok now id h hn hp s a hne hfind
  exact ⟨setAccepted now h hn hp a, l1, l2, hacc, hsplit,
    rfl, rfl, rfl, rfl, rfl, rfl, rfl, rfl, rfl⟩

/-- Witness for C10 at a concrete input: accepting alert A1 by helper d2
preserves all non-acceptance fields and the rest of the registry. -/
theorem accept_frame_witness :
    ∃ a2 l1 l2,
      acceptHelpAlert 0 "A1" (some "d2") (some "Dev") none [alertA]
        = (Except.ok a2, l1 ++ a2 :: l2) ∧
      pruneHelpAlerts 0 [alertA] = l1 ++ alertA :: l2 ∧
      a2.id = alertA.id ∧ a2.type = alertA.type ∧
      a2.message = alertA.message ∧
      a2.latitude = alertA.latitude ∧ a2.longitude = alertA.longitude ∧
      a2.requestedById = alertA.requestedById ∧
      a2.requestedByName = alertA.requestedByName ∧
      a2.requestedPhone = alertA.requestedPhone ∧
      a2.timestamp = alertA.timestamp :=
  accept_frame 0 "A1" "d2" (some "Dev") none [alertA] alertA (by decide) rfl

theorem postPresence_error (now : Int) (id name pf : Option String)
    (la ln : Option ℝ) (m m2 : List PresenceRecord) (e : Err)
    (h : postPresence now id name pf la ln m = (Except.error e, m2)) :
    e = Err.validation ∧ m2 = m := by
  unfold postPresence at h
  split at h
  · split at h
    · injection h with h1 h2
      injection h1 with h1
      exact ⟨h1.symm, h2.symm⟩
    · injection h with h1 h2
      cases h1
  · injection h with h1 h2
    injection h1 with h1
    exact ⟨h1.symm, h2.symm⟩

theorem getNearbyUsers_error (now : Int) (lat lng : Option ℝ) (radius : ℝ)
    (selfId : Option String) (m m2 : List PresenceRecord) (e : Err)
    (h : getNearbyUsers now lat lng radius selfId m = (Except.error e, m2)) :
    e = Err.validation ∧ m2 = m := by
  unfold getNearbyUsers at h
  split at h
  · injection h with h1 h2
    cases h1
  · injection h with h1 h2
    injection h1 with h1
    exact ⟨h1.symm, h2.symm⟩

theorem postMessage_error (now : Int) (nid : String)
    (fid fnm pf : Option String) (la ln : Option ℝ) (tx : Option String)
    (l l2 : List PublicMessage) (e : Err)
    (h : postMessage now nid fid fnm pf la ln tx l = (Except.error e, l2)) :
    e = Err.validation ∧ l2 = l := by
  unfold postMessage at h
  split at h
  · split at h
    · injection h with h1 h2
      injection h1 with h1
      exact ⟨h1.symm, h2.symm⟩
    · injection h with h1 h2
      cases h1
  · injection h with h1 h2
    injection h1 with h1
    exact ⟨h1.symm, h2.symm⟩

theorem getMessages_error (now : Int) (lat lng : Option ℝ) (radius : ℝ)
    (l l2 : List PublicMessage) (e : Err)
    (h : getMessages now lat lng radius l = (Except.error e, l2)) :
    e = Err.validation ∧ l2 = l := by
  unfold getMessages at h
  split at h
  · injection h with h1 h2
    cases h1
  · injection h with h1 h2
    injection h1 with h1
    exact ⟨h1.symm, h2.symm⟩

theorem postHelpAlert_error (now : Int) (nid : String)
    (fid fnm ph ty msg : Option String) (la ln : Option ℝ)
    (l l2 : List HelpAlert) (e : Err)
    (h : postHelpAlert now nid fid fnm ph ty msg la ln l = (Except.error e, l2)) :
    e = Err.validation ∧ l2 = l := by
  unfold postHelpAlert at h
  split at h
  · split at h
    · injection h with h1 h2
      injection h1 with h1
      exact ⟨h1.symm, h2.symm⟩
    · injection h with h1 h2
      cases h1
  · injection h with h1 h2
    injection h1 with h1
    exact ⟨h1.symm, h2.symm⟩

theorem getHelpAlerts_error (now : Int) (lat lng : Option ℝ) (radius : ℝ)
    (ex : Option String) (l l2 : List HelpAlert) (e : Err)
    (h : getHelpAlerts now lat lng radius ex l = (Except.error e, l2)) :
    e = Err.validation ∧ l2 = l := by
  unfold getHelpAlerts at h
  split at h
  · injection h with h1 h2
    cases h1
  · injection h with h1 h2
    injection h1 with h1
    exact ⟨h1.symm, h2.symm⟩

theorem getHelpAlertById_error (now : Int) (id : String)
    (l l2 : List HelpAlert) (e : Err)
    (h : getHelpAlertById now id l = (Except.error e, l2)) :
    e = Err.notFound ∧ l2 = pruneHelpAlerts now l := by
  unfold getHelpAlertById at h
  dsimp only at h
  split at h
  · injection h with h1 h2
    cases h1
  · injection h with h1 h2
    injection h1 with h1
    exact ⟨h1.symm, h2.symm⟩

theorem acceptHelpAlert_error (now : Int) (id : String)
    (hid hn hp : Option String) (l l2 : List HelpAlert) (e : Err)
    (h : acceptHelpAlert now id hid hn hp l = (Except.error e, l2)) :
    (e = Err.validation ∧ l2 = l) ∨
    (e = Err.notFound ∧ l2 = pruneHelpAlerts now l) := by
  unfold acceptHelpAlert at h
  split at h
  · split at h
    · injection h with h1 h2
      injection h1 with h1
      exact Or.inl ⟨h1.symm, h2.symm⟩
    · dsimp only at h
      split at h
      · injection h with h1 h2
        cases h1
      · injection h with h1 h2
        injection h1 with h1
        exact Or.inr ⟨h1.symm, h2.symm⟩
  · injection h with h1 h2
    injection h1 with h1
    exact Or.inl ⟨h1.symm, h2.symm⟩

theorem postDirectMessage_error (now : Int) (aid nid : String)
    (fid fnm tx : Option String) (l l2 : List DirectMessage) (e : Err)
    (h : postDirectMessage now aid nid fid fnm tx l = (Except.error e, l2)) :
    e = Err.validation ∧ l2 = l := by
  unfold postDirectMessage at h
  split at h
  · split at h
    · injection h with h1 h2
      injection h1 with h1
      exact ⟨h1.symm, h2.symm⟩
    · injection h with h1 h2
      cases h1
  · injection h with h1 h2
    injection h1 with h1
    exact ⟨h1.symm, h2.symm⟩

/-- Counterexample to C9 as stated: at time 3600001 the lookup of the
unknown alert id zzz fails with NotFoundError, yet it mutates the
help-alert registry — the expired alert A1 (timestamp 0, over 1 hour
old) is pruned by the failing request, so the state is not unchanged. -/
theorem failing_request_mutates_state :
    (step 3600001 (Request.helpAlertGet "zzz") stOneAlert).1
      = Except.error Err.notFound ∧
    (step 3600001 (Request.helpAlertGet "zzz") stOneAlert).2 ≠ stOneAlert := by
  constructor
  · rfl
  · intro h
    have hnil : ([] : List HelpAlert) = [alertA] :=
      congrArg ServerState.helpAlerts h
    cases hnil

/-- Amended Claim C9: a request failing with ValidationError leaves all
four registries unchanged; a request failing with NotFoundError (only the
help-alert lookup and accept routes can) leaves the state unchanged
except that the help-alert registry has its 1-hour age prune applied —
a prune every later operation on that registry would also perform, so
subsequent request outcomes are unaffected. -/
theorem failed_request_state_isolation (now : Int) (req : Request)
    (st : ServerState) :
    ((step now req st).1 = Except.error Err.validation →
      (step now req st).2 = st) ∧
    ((step now req st).1 = Except.error Err.notFound →
      (step now req st).2
        = { st with helpAlerts := pruneHelpAlerts now st.helpAlerts }) := by
  cases req with
  | presenceReport id name pf la ln =>
    constructor
    · intro h
      simp only [step] at h ⊢
      rw [except_map_error] at h
      have hfull : postPresence now id name pf la ln st.presenceMap
          = (Except.error Err.validation,
             (postPresence now id name pf la ln st.presenceMap).2) := by
        rw [← h]
      obtain ⟨-, h2⟩ :=
        postPresence_error now id name pf la ln st.presenceMap _ _ hfull
      rw [h2]
    · intro h
      simp only [step] at h
      rw [except_map_error] at h
      have hfull : postPresence now id name pf la ln st.presenceMap
          = (Except.error Err.notFound,
             (postPresence now id name pf la ln st.presenceMap).2) := by
        rw [← h]
      obtain ⟨h1, -⟩ :=
        postPresence_error now id name pf la ln st.presenceMap _ _ hfull
      exact Err.noConfusion h1
  | nearbyUsers lat lng radius selfId =>
    constructor
    · intro h
      simp only [step] at h ⊢
      rw [except_map_error] at h
      have hfull : getNearbyUsers now lat lng radius selfId st.presenceMap
          = (Except.error Err.validation,
             (getNearbyUsers now lat lng radius selfId st.presenceMap).2) := by
        rw [← h]
      obtain ⟨-, h2⟩ :=
        getNearbyUsers_error now lat lng radius selfId st.presenceMap _ _ hfull
      rw [h2]
    · intro h
      simp only [step] at h
      rw [except_map_error] at h
      have hfull : getNearbyUsers now lat lng radius selfId st.presenceMap
          = (Except.error Err.notFound,
             (getNearbyUsers now lat lng radius selfId st.presenceMap).2) := by
        rw [← h]
      obtain ⟨h1, -⟩ :=
        getNearbyUsers_error now lat lng radius selfId st.presenceMap _ _ hfull
      exact Err.noConfusion h1
  | messagePost nid fid fnm pf la ln tx =>
    constructor
    · intro h
      simp only [step] at h ⊢
      rw [except_map_error] at h
      have hfull : postMessage now nid fid fnm pf la ln tx st.messages
          = (Except.error Err.validation,
             (postMessage now nid fid fnm pf la ln tx st.messages).2) := by
        rw [← h]
      obtain ⟨-, h2⟩ :=
        postMessage_error now nid fid fnm pf la ln tx st.messages _ _ hfull
      rw [h2]
    · intro h
      simp only [step] at h
      rw [except_map_error] at h
      have hfull : postMessage now nid fid fnm pf la ln tx st.messages
          = (Except.error Err.notFound,
             (postMessage now nid fid fnm pf la ln tx st.messages).2) := by
        rw [← h]
      obtain ⟨h1, -⟩ :=
        postMessage_error now nid fid fnm pf la ln tx st.messages _ _ hfull
      exact Err.noConfusion h1
  | messagesQuery lat lng radius =>
    constructor
    · intro h
      simp only [step] at h ⊢
      rw [except_map_error] at h
      have hfull : getMessages now lat lng radius st.messages
          = (Except.error Err.validation,
             (getMessages now lat lng radius st.messages).2) := by
        rw [← h]
      obtain ⟨-, h2⟩ := getMessages_error now lat lng radius st.messages _ _ hfull
      rw [h2]
    · intro h
      simp only [step] at h
      rw [except_map_error] at h
      have hfull : getMessages now lat lng radius st.messages
          = (Except.error Err.notFound,
             (getMessages now lat lng radius st.messages).2) := by
        rw [← h]
      obtain ⟨h1, -⟩ := getMessages_error now lat lng radius st.messages _ _ hfull
      exact Err.noConfusion h1
  | helpAlertPost nid fid fnm ph ty msg la ln =>
    constructor
    · intro h
      simp only [step] at h ⊢
      rw [except_map_error] at h
      have hfull : postHelpAlert now nid fid fnm ph ty msg la ln st.helpAlerts
          = (Except.error Err.validation,
             (postHelpAlert now nid fid fnm ph ty msg la ln st.helpAlerts).2) := by
        rw [← h]
      obtain ⟨-, h2⟩ :=
        postHelpAlert_error now nid fid fnm ph ty msg la ln st.helpAlerts _ _ hfull
      rw [h2]
    · intro h
      simp only [step] at h
      rw [except_map_error] at h
      have hfull : postHelpAlert now nid fid fnm ph ty msg la ln st.helpAlerts
          = (Except.error Err.notFound,
             (postHelpAlert now nid fid fnm ph ty msg la ln st.helpAlerts).2) := by
        rw [← h]
      obtain ⟨h1, -⟩ :=
        postHelpAlert_error now nid fid fnm ph ty msg la ln st.helpAlerts _ _ hfull
      exact Err.noConfusion h1
  | helpAlertsQuery lat lng radius ex =>
    constructor
    · intro h
      simp only [step] at h ⊢
      rw [except_map_error] at h
      have hfull : getHelpAlerts now lat lng radius ex st.helpAlerts
          = (Except.error Err.validation,
             (getHelpAlerts now lat lng radius ex st.helpAlerts).2) := by
        rw [← h]
      obtain ⟨-, h2⟩ :=
        getHelpAlerts_error now lat lng radius ex st.helpAlerts _ _ hfull
      rw [h2]
    · intro h
      simp only [step] at h
      rw [except_map_error] at h
      have hfull : getHelpAlerts now lat lng radius ex st.helpAlerts
          = (Except.error Err.notFound,
             (getHelpAlerts now lat lng radius ex st.helpAlerts).2) := by
        rw [← h]
      obtain ⟨h1, -⟩ :=
        getHelpAlerts_error now lat lng radius ex st.helpAlerts _ _ hfull
      exact Err.noConfusion h1
  | helpAlertGet id =>
    constructor
    · intro h
      simp only [step] at h
      rw [except_map_error] at h
      have hfull : getHelpAlertById now id st.helpAlerts
          = (Except.error Err.validation,
             (getHelpAlertById now id st.helpAlerts).2) := by
        rw [← h]
      obtain ⟨h1, -⟩ := getHelpAlertById_error now id st.helpAlerts _ _ hfull
      exact Err.noConfusion h1
    · intro h
      simp only [step] at h ⊢
      rw [except_map_error] at h
      have hfull : getHelpAlertById now id st.helpAlerts
          = (Except.error Err.notFound,
             (getHelpAlertById now id st.helpAlerts).2) := by
        rw [← h]
      obtain ⟨-, h2⟩ := getHelpAlertById_error now id st.helpAlerts _ _ hfull
      rw [h2]
  | helpAlertAccept id hid hn hp =>
    constructor
    · intro h
      simp only [step] at h ⊢
      rw [except_map_error] at h
      have hfull : acceptHelpAlert now id hid hn hp st.helpAlerts
          = (Except.error Err.validation,
             (acceptHelpAlert now id hid hn hp st.helpAlerts).2) := by
        rw [← h]
      rcases acceptHelpAlert_error now id hid hn hp st.helpAlerts _ _ hfull with
        ⟨-, h2⟩ | ⟨h1, -⟩
      · rw [h2]
      · exact Err.noConfusion h1
    · intro h
      simp only [step] at h ⊢
      rw [except_map_error] at h
      have hfull : acceptHelpAlert now id hid hn hp st.helpAlerts
          = (Except.error Err.notFound,
             (acceptHelpAlert now id hid hn hp st.helpAlerts).2) := by
        rw [← h]
      rcases acceptHelpAlert_error now id hid hn hp st.helpAlerts _ _ hfull with
        ⟨h1, -⟩ | ⟨-, h2⟩
      · exact Err.noConfusion h1
      · rw [h2]
  | directMessagesGet aid =>
    constructor
    · intro h
      simp only [step] at h
      exact Except.noConfusion h
    · intro h
      simp only [step] at h
      exact Except.noConfusion h
  | directMessagePost aid nid fid fnm tx =>
    constructor
    · intro h
      simp only [step] at h ⊢
      rw [except_map_error] at h
      have hfull : postDirectMessage now aid nid fid fnm tx st.directMessages
          = (Except.error Err.validation,
             (postDirectMessage now aid nid fid fnm tx st.directMessages).2) := by
        rw [← h]
      obtain ⟨-, h2⟩ :=
        postDirectMessage_error now aid nid fid fnm tx st.directMessages _ _ hfull
      rw [h2]
    · intro h
      simp only [step] at h
      rw [except_map_error] at h
      have hfull : postDirectMessage now aid nid fid fnm tx st.directMessages
          = (Except.error Err.notFound,
             (postDirectMessage now aid nid fid fnm tx st.directMessages).2) := by
        rw [← h]
      obtain ⟨h1, -⟩ :=
        postDirectMessage_error now aid nid fid fnm tx st.directMessages _ _ hfull
      exact Err.noConfusion h1

/-- Witness for the amended C9 at concrete inputs: a validation failure
(presence report with no id) leaves the state untouched, and a not-found
failure (lookup of an unknown alert) leaves it only age-pruned. -/
theorem failed_request_state_isolation_witness :
    (step 0 (Request.presenceReport none none none none none) stEmpty).2
      = stEmpty ∧
    (step 3600001 (Request.helpAlertGet "zzz") stOneAlert).2
      = { stOneAlert with
          helpAlerts := pruneHelpAlerts 3600001 stOneAlert.helpAlerts } := by
  constructor
  · exact (failed_request_state_isolation 0
      (Request.presenceReport none none none none none) stEmpty).1 rfl
  · exact (failed_request_state_isolation 3600001
      (Request.helpAlertGet "zzz") stOneAlert).2 rfl

end LocalHerro
